import Mathlib

/-!
Shallow embedding of the Formatly document-formatting service
(src/api.py: the real pipeline; src/main.py: the simulated pipeline;
src/app/api/upload-complete.py: a variant of the completion webhook).

Job records live in the "documents" table of the relational store; we model
the store as a list of records and each HTTP handler as a function from the
store (plus its request arguments) to a response together with the new store.
FastAPI HTTPException values are modelled by the HTTPExc structure; a handler
body that Python wraps in a bare "try/except Exception" is modelled by an
inner function whose error (including an HTTPException raised inside the try
block) is converted to a 500 response by the outer wrapper, exactly as the
Python code does.  Timestamps (created_at, updated_at, processed_at) carry no
information used by any claim and are omitted.
-/

namespace Formatly

/-- The processing_log JSON column: a flat dictionary whose keys are the ones
the source ever writes (progress, error, message, processing_time, backend,
word_count).  Absent keys are none. -/
structure Log where
  progress : Option Int := none
  error : Option String := none
  message : Option String := none
  processing_time : Option ℚ := none
  backend : Option String := none
  word_count : Option Nat := none
deriving Repr, DecidableEq

/-- The formatting_options JSON column; the source only ever reads the
trackedChanges key. -/
structure FormattingOptions where
  trackedChanges : Bool := false
deriving Repr, DecidableEq

/-- One row of the "documents" table (the Job Record). -/
structure Document where
  id : String := ""
  user_id : String := ""
  filename : String := ""
  status : String := "draft"
  style_applied : String := ""
  language_variant : String := ""
  storage_location : String := ""
  formatting_options : FormattingOptions := {}
  tracked_changes : Option Bool := none
  file_size : Option Int := none
  processing_log : Option Log := none
  result_url : Option String := none
  formatting_time : Option ℚ := none
deriving Repr, DecidableEq

/-- The documents table. -/
abbrev DB := List Document

/-- A FastAPI HTTPException (status_code, detail). -/
structure HTTPExc where
  status_code : Nat
  detail : String
deriving Repr, DecidableEq

/-- Python str() of a Starlette HTTPException: "code: detail".  Used where a
blanket "except Exception as e" turns a caught HTTPException into the detail
string of a new 500 response. -/
def excStr (e : HTTPExc) : String := toString e.status_code ++ ": " ++ e.detail

/-- Decidable equality on Except results, so concrete handler outcomes can be
checked by decide. -/
instance instDecEqExcept {ε α : Type} [DecidableEq ε] [DecidableEq α] :
    DecidableEq (Except ε α) := fun x y =>
  match x, y with
  | .ok a, .ok b =>
      if h : a = b then isTrue (by rw [h]) else isFalse (by simp [h])
  | .error a, .error b =>
      if h : a = b then isTrue (by rw [h]) else isFalse (by simp [h])
  | .ok _, .error _ => isFalse (by simp)
  | .error _, .ok _ => isFalse (by simp)

/-- supabase.table("documents").select("*").eq("id", job_id).eq("user_id", user_id) -/
def selectByIdUser (db : DB) (job_id user_id : String) : List Document :=
  db.filter (fun d => d.id == job_id && d.user_id == user_id)

/-- Leading-match test on character lists (helper for the substring test below). -/
def charsStart : List Char → List Char → Bool
  | _, [] => true
  | [], _ :: _ => false
  | a :: s, b :: t => a == b && charsStart s t

/-- List-of-characters substring test (helper for strContains). -/
def charsContain : List Char → List Char → Bool
  | [], pat => pat.isEmpty
  | s@(_ :: rest), pat => charsStart s pat || charsContain rest pat

/-- Python "pat in s" substring test on strings. -/
def strContains (s pat : String) : Bool := charsContain s.data pat.data

/-- Base64 alphabet (models the encoding done by base64.b64encode). -/
def base64Table : List Char :=
  "ABCDEFGHIJKLMNOPQRSTUVWXYZabcdefghijklmnopqrstuvwxyz0123456789+/".data

/-- Character of the base64 alphabet at index n. -/
def base64Digit (n : Nat) : Char := base64Table.getD n '='

/-- Base64 encoding of a byte list, three bytes at a time. -/
def base64Chunks : List Nat → List Char
  | [] => []
  | [a] => [base64Digit (a / 4), base64Digit (a % 4 * 16), '=', '=']
  | [a, b] =>
      [base64Digit (a / 4), base64Digit (a % 4 * 16 + b / 16),
       base64Digit (b % 16 * 4), '=']
  | a :: b :: c :: rest =>
      [base64Digit (a / 4), base64Digit (a % 4 * 16 + b / 16),
       base64Digit (b % 16 * 4 + c / 64), base64Digit (c % 64)]
        ++ base64Chunks rest

/-- Python base64.b64encode(s.encode()).decode(), for the ASCII payloads the
source produces. -/
def b64encode (s : String) : String :=
  String.mk (base64Chunks (s.data.map Char.toNat))

namespace Api

/-! Definitions embedded from src/api.py. -/

/-- The keyword arguments of api.py update_document_status
(status, progress, processing_log, result_url, formatting_time);
one value of this structure is one call to the helper. -/
structure UpdateArgs where
  status : String
  progress : Option Int := none
  processing_log : Option Log := none
  result_url : Option String := none
  formatting_time : Option ℚ := none
deriving Repr, DecidableEq

/-- Effect of one api.py update_document_status call on a single row: status
is always written; processing_log is written (with progress merged into it)
only when progress is not None; result_url only when truthy; formatting_time
only when the new status is "formatted" and a time was given. -/
def applyUpdate (d : Document) (u : UpdateArgs) : Document :=
  let d1 := { d with status := u.status }
  let d2 :=
    match u.progress with
    | some p => { d1 with processing_log := some { u.processing_log.getD {} with progress := some p } }
    | none => d1
  let d3 :=
    match u.result_url with
    | some r => if r != "" then { d2 with result_url := some r } else d2
    | none => d2
  if u.status == "formatted" then
    match u.formatting_time with
    | some t => { d3 with formatting_time := some t }
    | none => d3
  else d3

/-- supabase.table("documents").update(update_data).eq("id", job_id) -/
def updateWhere (db : DB) (job_id : String) (u : UpdateArgs) : DB :=
  db.map (fun d => if d.id == job_id then applyUpdate d u else d)

/-- api.py update_document_status: the whole body is inside try/except; a
store failure (store_fail) is caught and only logged, so the helper returns
normally either way and a failed write is dropped. -/
def update_document_status (store_fail : Bool) (db : DB) (job_id : String)
    (u : UpdateArgs) : Except HTTPExc DB :=
  match (if store_fail then Except.error "Error updating document status"
         else Except.ok (updateWhere db job_id u) : Except String DB) with
  | .ok db2 => .ok db2
  | .error _ => .ok db

/-- api.py create_document_record: the inserted draft row. -/
def draftRecord (user_id filename file_path job_id style language_variant : String)
    (trackedChanges : Bool) (file_size : Option Int) : Document :=
  { id := job_id, user_id := user_id, filename := filename,
    status := "draft", style_applied := style,
    language_variant := language_variant, storage_location := file_path,
    formatting_options := { trackedChanges := trackedChanges },
    tracked_changes := some trackedChanges, file_size := file_size }

/-- Outcome of one real pipeline run: which step, if any, raised, and with
what exception message; on success, the elapsed transform duration. -/
inductive RunOutcome where
  | success (duration : ℚ)
  | fetchFail (msg : String)
  | transformFail (msg : String)
  | storeFail (msg : String)
deriving Repr, DecidableEq

/-- The exception message of a failing run outcome, if any. -/
def RunOutcome.failureMsg : RunOutcome → Option String
  | .success _ => none
  | .fetchFail m => some m
  | .transformFail m => some m
  | .storeFail m => some m

/-- The error normalization inside the except branch of
api.py process_document_task (string matching on str(e)). -/
def classify_error (m : String) : String :=
  if strContains m "JSON Parsing Error" || strContains m "Unexpected end of input" then
    "Formatting failed: AI response was malformed. Please try again."
  else if strContains m "peer closed connection" || strContains m "incomplete chunked read" then
    "Formatting failed: Connection to AI server lost. Please try again."
  else m

/-- f"formatted/{job_id}.docx", the result storage handle. -/
def result_filename (job_id : String) : String := "formatted/" ++ job_id ++ ".docx"

/-- The update issued after the source download succeeds. -/
def upd10 : UpdateArgs :=
  { status := "processing", progress := some 10,
    processing_log := some { message := some "File downloaded, initializing AI..." } }

/-- The update issued just before the transformation engine is invoked. -/
def upd30 (backend : String) : UpdateArgs :=
  { status := "processing", progress := some 30,
    processing_log := some { message := some ("Analyzing document structure with " ++ backend ++ "...") } }

/-- The update issued after the transformation returns, before the result upload. -/
def upd90 : UpdateArgs :=
  { status := "processing", progress := some 90,
    processing_log := some { message := some "Formatting complete. Uploading result..." } }

/-- The single finalizing update of a successful run. -/
def finalUpd (job_id : String) (duration : ℚ) (backend : String) : UpdateArgs :=
  { status := "formatted", progress := some 100,
    processing_log := some
      { progress := some 100, processing_time := some duration,
        backend := some backend, message := some "Formatting successful" },
    result_url := some (result_filename job_id),
    formatting_time := some duration }

/-- The single update issued by the except branch of process_document_task. -/
def failUpd (m : String) : UpdateArgs :=
  { status := "failed", progress := some 0,
    processing_log := some { error := some (classify_error m) } }

/-- The sequence of update_document_status calls one api.py
process_document_task run issues, in program order, as a function of where
(if anywhere) the run raises. -/
def process_document_task_updates (job_id backend : String) : RunOutcome → List UpdateArgs
  | .fetchFail m => [failUpd m]
  | .transformFail m => [upd10, upd30 backend, failUpd m]
  | .storeFail m => [upd10, upd30 backend, upd90, failUpd m]
  | .success duration => [upd10, upd30 backend, upd90, finalUpd job_id duration backend]

/-- Effect of a whole process_document_task run on the documents table. -/
def process_document_task (db : DB) (job_id backend : String) (o : RunOutcome) : DB :=
  (process_document_task_updates job_id backend o).foldl
    (fun acc u => updateWhere acc job_id u) db

/-- The update the upload-complete webhook issues on success before spawning
the pipeline task (draft to processing, progress reset to 0). -/
def webhookProcessingUpd : UpdateArgs := { status := "processing", progress := some 0 }

/-- The update it issues when the client reports a failed upload. -/
def webhookFailedUpd : UpdateArgs :=
  { status := "failed", progress := some 0,
    processing_log := some { error := some "Upload failed" } }

/-- Response body of the upload-complete webhook. -/
structure WebhookResp where
  success : Bool
  message : String
  job_id : String
deriving Repr, DecidableEq

/-- Result of one webhook call: the HTTP response, the new table state, and
whether an asyncio pipeline task was spawned by this call. -/
structure WebhookOutcome where
  resp : Except HTTPExc WebhookResp
  db : DB
  pipeline_started : Bool
deriving Repr, DecidableEq

/-- api.py upload_complete_webhook.  The body is wrapped in a bare
try/except Exception, so the ownership 404 raised inside it is re-raised as
a 500 whose detail is str(e).  No status check is performed before the
success branch: any found record is moved to processing and a new pipeline
task is spawned. -/
def upload_complete_webhook (db : DB) (job_id _file_path user_id : String)
    (success : Bool) : WebhookOutcome :=
  match selectByIdUser db job_id user_id with
  | [] =>
      { resp := .error { status_code := 500, detail := excStr { status_code := 404, detail := "Job not found" } },
        db := db, pipeline_started := false }
  | _doc :: _ =>
      if success then
        { resp := .ok { success := true, message := "Processing started", job_id := job_id },
          db := updateWhere db job_id webhookProcessingUpd,
          pipeline_started := true }
      else
        { resp := .ok { success := false, message := "Upload failed recorded", job_id := job_id },
          db := updateWhere db job_id webhookFailedUpd,
          pipeline_started := false }

/-- Response body of get_document_status. -/
structure DocumentStatusResponse where
  success : Bool
  job_id : String
  status : String
  progress : Int
  result_url : Option String := none
  error : Option String := none
deriving Repr, DecidableEq

/-- The try-block body of api.py get_document_status. -/
def get_document_status_inner (db : DB) (job_id user_id : String) :
    Except HTTPExc DocumentStatusResponse :=
  match selectByIdUser db job_id user_id with
  | [] => .error { status_code := 404, detail := "Job not found" }
  | doc :: _ =>
      let log := doc.processing_log.getD {}
      .ok { success := true, job_id := job_id, status := doc.status,
            progress := log.progress.getD 0, error := log.error }

/-- api.py get_document_status: the blanket except Exception turns every
error raised inside the try block, the ownership 404 included, into a 500. -/
def get_document_status (db : DB) (job_id user_id : String) :
    Except HTTPExc DocumentStatusResponse :=
  match get_document_status_inner db job_id user_id with
  | .ok r => .ok r
  | .error e => .error { status_code := 500, detail := excStr e }

/-- Response body of api.py download_document; its metadata dictionary only
carries the style key.  tracked_changes_content is declared on the response
model but api.py never assigns it, so it keeps its None default. -/
structure FormattedDocumentResponse where
  success : Bool
  filename : String
  content : String
  tracked_changes_content : Option String := none
  metadata_style : String
deriving Repr, DecidableEq

/-- The try-block body of api.py download_document.  storage_download models
supabase.storage.from_("documents").download, mapping a handle to the bytes
stored there (as a string, since the payload bytes are never inspected). -/
def download_document_inner (storage_download : String → String) (db : DB)
    (job_id user_id : String) : Except HTTPExc FormattedDocumentResponse :=
  match selectByIdUser db job_id user_id with
  | [] => .error { status_code := 404, detail := "Job not found" }
  | doc :: _ =>
      if doc.status != "formatted" then
        .error { status_code := 400, detail := "Document not ready" }
      else
        match doc.result_url with
        | none => .error { status_code := 404, detail := "Result file not found" }
        | some r =>
            if r == "" then .error { status_code := 404, detail := "Result file not found" }
            else
              .ok { success := true, filename := "formatted_" ++ doc.filename,
                    content := b64encode (storage_download r),
                    metadata_style := doc.style_applied }

/-- api.py download_document: the blanket except Exception turns every error
raised inside the try block (the 404s and the not-ready 400) into a 500. -/
def download_document (storage_download : String → String) (db : DB)
    (job_id user_id : String) : Except HTTPExc FormattedDocumentResponse :=
  match download_document_inner storage_download db job_id user_id with
  | .ok r => .ok r
  | .error e => .error { status_code := 500, detail := excStr e }

/-- Response body of api.py delete_job. -/
structure DeleteResp where
  success : Bool
  message : String
deriving Repr, DecidableEq

/-- Result of one delete_job call: HTTP response, new table state, remaining
blob-storage objects, and the handles this call removed from storage. -/
structure DeleteOutcome where
  resp : Except HTTPExc DeleteResp
  db : DB
  storage : List String
  removed : List String
deriving Repr, DecidableEq

/-- api.py delete_job.  After the ownership lookup it unconditionally removes
the input object (and the result object when present) from blob storage and
deletes the row; the record status is never consulted.  The ownership 404 is
raised inside the blanket try/except and so surfaces as a 500. -/
def delete_job (db : DB) (storage : List String) (job_id user_id : String) :
    DeleteOutcome :=
  match selectByIdUser db job_id user_id with
  | [] =>
      { resp := .error { status_code := 500, detail := excStr { status_code := 404, detail := "Job not found" } },
        db := db, storage := storage, removed := [] }
  | doc :: _ =>
      let r1 := if doc.storage_location != "" then [doc.storage_location] else []
      let r2 := match doc.result_url with
                | some r => if r != "" then [r] else []
                | none => []
      let removed := r1 ++ r2
      { resp := .ok { success := true, message := "Job deleted" },
        db := db.filter (fun d => d.id != job_id),
        storage := storage.filter (fun h => !(removed.contains h)),
        removed := removed }

/-- Response body of create_upload_url. -/
structure CreateUploadResponse where
  success : Bool
  job_id : String
  upload_url : String
  upload_token : String
  file_path : String
  message : String
deriving Repr, DecidableEq

/-- Result of one create_upload_url call. -/
structure CreateOutcome where
  resp : Except HTTPExc CreateUploadResponse
  db : DB
deriving Repr, DecidableEq

/-- api.py create_upload_url.  job_id, file_path, upload_url and upload_token
stand for the fresh uuid and the signed-upload credential obtained from the
storage collaborator.  Note: no validation of file_size is performed; the
value is stored on the record as received. -/
def create_upload_url (db : DB) (filename style englishVariant : String)
    (trackedChanges : Bool) (file_size : Option Int)
    (user_id job_id file_path upload_url upload_token : String) : CreateOutcome :=
  { resp := .ok { success := true, job_id := job_id, upload_url := upload_url,
                  upload_token := upload_token, file_path := file_path,
                  message := "Upload URL created." },
    db := db ++ [draftRecord user_id filename file_path job_id style
                   englishVariant trackedChanges file_size] }

end Api

namespace Main

/-! Definitions embedded from src/main.py (the simulated service; the
upload-complete webhook here is shared with src/app/api/upload-complete.py,
which adds logging and inner error wrapping but the same state changes). -/

/-- The keyword arguments of main.py update_document_status: unlike the
api.py version there is no result_url and no formatting_time parameter. -/
structure UpdateArgs where
  status : String
  progress : Option Int := none
  processing_log : Option Log := none
deriving Repr, DecidableEq

/-- Effect of one main.py update_document_status call on a single row.
processing_log is written only when progress is not None: a call that passes
a log but no progress (both failure paths do) silently drops the log. -/
def applyUpdate (d : Document) (u : UpdateArgs) : Document :=
  let d1 := { d with status := u.status }
  match u.progress with
  | some p => { d1 with processing_log := some { u.processing_log.getD {} with progress := some p } }
  | none => d1

/-- supabase.table("documents").update(update_data).eq("id", job_id) -/
def updateWhere (db : DB) (job_id : String) (u : UpdateArgs) : DB :=
  db.map (fun d => if d.id == job_id then applyUpdate d u else d)

/-- main.py update_document_status: like the api.py version the whole body is
inside try/except, so a store failure is caught, only logged, and dropped. -/
def update_document_status (store_fail : Bool) (db : DB) (job_id : String)
    (u : UpdateArgs) : Except HTTPExc DB :=
  match (if store_fail then Except.error "Error updating document status"
         else Except.ok (updateWhere db job_id u) : Except String DB) with
  | .ok db2 => .ok db2
  | .error _ => .ok db

/-- main.py create_document_record: the inserted draft row (identical fields
to the api.py one for the purposes of the claims; the extra file_type column
is derived from the filename and unused downstream). -/
def draftRecord (user_id filename file_path job_id style language_variant : String)
    (trackedChanges : Bool) (file_size : Option Int) : Document :=
  { id := job_id, user_id := user_id, filename := filename,
    status := "draft", style_applied := style,
    language_variant := language_variant, storage_location := file_path,
    formatting_options := { trackedChanges := trackedChanges },
    tracked_changes := some trackedChanges, file_size := file_size }

/-- main.py create_document_record validation wrapper: the size checks raise
HTTPException(400) inside a try block whose except Exception re-raises them
as a 500 whose detail quotes them. -/
def create_document_record (db : DB)
    (user_id filename file_path job_id style language_variant : String)
    (trackedChanges : Bool) (file_size : Option Int) : Except HTTPExc DB :=
  match file_size with
  | some n =>
      if n < 0 then
        .error { status_code := 500,
                 detail := "Failed to create document record: " ++ excStr { status_code := 400, detail := "File size must be non-negative" } }
      else if 100 * 1024 * 1024 < n then
        .error { status_code := 500,
                 detail := "Failed to create document record: " ++ excStr { status_code := 400, detail := "File size exceeds maximum limit of 100MB" } }
      else
        .ok (db ++ [draftRecord user_id filename file_path job_id style
                      language_variant trackedChanges (some n)])
  | none =>
      .ok (db ++ [draftRecord user_id filename file_path job_id style
                    language_variant trackedChanges none])

/-- main.py create_upload_url.  The endpoint validates file_size itself
before touching any collaborator, and its except-clauses re-raise
HTTPException unchanged, so the 400 rejections reach the client and no
record is created. -/
def create_upload_url (db : DB) (filename style englishVariant : String)
    (trackedChanges : Bool) (file_size : Option Int)
    (user_id job_id file_path upload_url upload_token : String) : Api.CreateOutcome :=
  let proceed : Api.CreateOutcome :=
    match create_document_record db user_id filename file_path job_id style
            englishVariant trackedChanges file_size with
    | .error e => { resp := .error e, db := db }
    | .ok db2 =>
        { resp := .ok { success := true, job_id := job_id, upload_url := upload_url,
                        upload_token := upload_token, file_path := file_path,
                        message := "Upload URL created. Document status: DRAFT. Please upload your document to begin " ++ style ++ " formatting." },
          db := db2 }
  match file_size with
  | some n =>
      if n < 0 then
        { resp := .error { status_code := 400, detail := "File size must be non-negative" }, db := db }
      else if 100 * 1024 * 1024 < n then
        { resp := .error { status_code := 400, detail := "File size exceeds maximum limit of 100MB" }, db := db }
      else proceed
  | none => proceed

/-- Outcome of one simulated run: success, or an exception after k of the
updates with message msg (the simulated body has no real failure source; the
parameter makes the exception handler explicit). -/
inductive SimOutcome where
  | success
  | fail (k : Nat) (msg : String)
deriving Repr, DecidableEq

/-- The update sequence of a successful main.py simulate_processing run. -/
def simulate_success_updates : List UpdateArgs :=
  [ { status := "processing", progress := some 25 },
    { status := "processing", progress := some 75 },
    { status := "formatted", progress := some 100,
      processing_log := some { progress := some 100, word_count := some 1250,
                               processing_time := some (3.5 : ℚ) } } ]

/-- The update issued by the exception handler of simulate_processing: it
passes the error log but no progress, so applyUpdate drops the log. -/
def sim_fail_upd (msg : String) : UpdateArgs :=
  { status := "failed", processing_log := some { error := some msg } }

/-- The sequence of update_document_status calls one simulate_processing run
issues; note the failure update passes no progress, so its error log is
dropped by update_document_status. -/
def simulate_processing_updates : SimOutcome → List UpdateArgs
  | .success => simulate_success_updates
  | .fail k msg => simulate_success_updates.take k ++ [sim_fail_upd msg]

/-- Effect of a whole simulate_processing run on the documents table. -/
def simulate_processing (db : DB) (job_id : String) (o : SimOutcome) : DB :=
  (simulate_processing_updates o).foldl (fun acc u => updateWhere acc job_id u) db

/-- The update main.py upload_complete_webhook issues on success. -/
def webhookProcessingUpd : UpdateArgs := { status := "processing", progress := some 0 }

/-- The update it issues when the client reports a failed upload (progress is
not passed, so applyUpdate drops the error log). -/
def webhookFailedUpd : UpdateArgs :=
  { status := "failed", processing_log := some { error := some "File upload failed" } }

/-- Result of one main.py webhook call. -/
structure WebhookOutcome where
  resp : Except HTTPExc Api.WebhookResp
  db : DB
  pipeline_started : Bool
deriving Repr, DecidableEq

/-- main.py upload_complete_webhook (same state changes as
src/app/api/upload-complete.py): ownership 404 propagates (except
HTTPException re-raises), and as in api.py no status check guards the
success branch. -/
def upload_complete_webhook (db : DB) (job_id _file_path user_id : String)
    (success : Bool) : WebhookOutcome :=
  match selectByIdUser db job_id user_id with
  | [] =>
      { resp := .error { status_code := 404, detail := "Job not found" },
        db := db, pipeline_started := false }
  | _doc :: _ =>
      if success then
        { resp := .ok { success := true,
                        message := "Upload confirmed. Document processing started. Status: PROCESSING",
                        job_id := job_id },
          db := updateWhere db job_id webhookProcessingUpd,
          pipeline_started := true }
      else
        { resp := .ok { success := false,
                        message := "Upload failed. Status: FAILED. Please try again.",
                        job_id := job_id },
          db := updateWhere db job_id webhookFailedUpd,
          pipeline_started := false }

/-- main.py get_document_status: ownership 404 propagates here (the handler
re-raises HTTPException before its blanket except). -/
def get_document_status (db : DB) (job_id user_id : String) :
    Except HTTPExc Api.DocumentStatusResponse :=
  match selectByIdUser db job_id user_id with
  | [] => .error { status_code := 404, detail := "Job not found" }
  | doc :: _ =>
      let log := doc.processing_log.getD {}
      .ok { success := true, job_id := job_id, status := doc.status,
            progress := log.progress.getD 0,
            result_url := if doc.status == "formatted"
                          then some ("/api/documents/download/" ++ job_id) else none,
            error := log.error }

/-- The primary mock payload main.py download_document synthesizes. -/
def mock_text (d : Document) : String :=
  "FORMATTED DOCUMENT: " ++ d.filename ++ "\nStyle: " ++ d.style_applied
    ++ "\nVariant: " ++ d.language_variant

/-- The tracked-changes payload it synthesizes when the option is on. -/
def tracked_text (d : Document) : String :=
  "TRACKED CHANGES VERSION: " ++ d.filename ++ "\nStyle: " ++ d.style_applied
    ++ "\nVariant: " ++ d.language_variant
    ++ "\n\n[CHANGES TRACKED:]\n- Paragraph formatting adjusted\n- Heading styles applied\n- Spacing normalized\n- References formatted"

/-- The tracked-changes flag: the tracked_changes column, falling back to the
trackedChanges formatting option only when the column is NULL. -/
def tracked_enabled (d : Document) : Bool :=
  d.tracked_changes.getD d.formatting_options.trackedChanges

/-- Response metadata of main.py download_document. -/
structure DownloadMetadata where
  word_count : Nat
  style_applied : String
  processing_time : ℚ
  tracked_changes_enabled : Bool
deriving Repr, DecidableEq

/-- Response body of main.py download_document. -/
structure FormattedDocumentResponse where
  success : Bool
  filename : String
  content : String
  tracked_changes_content : Option String := none
  metadata : DownloadMetadata
deriving Repr, DecidableEq

/-- main.py download_document: ownership 404 and the not-ready 400 propagate
(except HTTPException re-raises); a second tracked-changes payload is
attached exactly when the option is enabled. -/
def download_document (db : DB) (job_id user_id : String) :
    Except HTTPExc FormattedDocumentResponse :=
  match selectByIdUser db job_id user_id with
  | [] => .error { status_code := 404, detail := "Job not found" }
  | doc :: _ =>
      if doc.status != "formatted" then
        .error { status_code := 400, detail := "Document not ready for download" }
      else
        let log := doc.processing_log.getD {}
        let enabled := tracked_enabled doc
        .ok { success := true, filename := "formatted_" ++ doc.filename,
              content := b64encode (mock_text doc),
              tracked_changes_content :=
                if enabled then some (b64encode (tracked_text doc)) else none,
              metadata := { word_count := log.word_count.getD 1250,
                            style_applied := doc.style_applied,
                            processing_time := log.processing_time.getD (3.5 : ℚ),
                            tracked_changes_enabled := enabled } }

/-- main.py delete_job operates on the module-level jobs_storage dictionary
(modelled by its key list); nothing in main.py ever inserts into it. -/
def delete_job (jobs_storage : List String) (job_id : String) :
    Except HTTPExc Api.DeleteResp × List String :=
  if jobs_storage.contains job_id then
    (.ok { success := true, message := "Job deleted" },
     jobs_storage.filter (fun k => k != job_id))
  else
    (.error { status_code := 404, detail := "Job not found" }, jobs_storage)

end Main

/-! Derived notions shared by the theorems below. -/

/-- The error string recorded on a record (empty when absent). -/
def error_of (d : Document) : String := ((d.processing_log.getD {}).error).getD ""

/-- The result handle recorded on a record (empty when absent). -/
def result_of (d : Document) : String := d.result_url.getD ""

/-- The record-level invariant of spec section 3: the error field is
populated exactly on failed records and the result location exactly on
formatted records. -/
def record_consistent (d : Document) : Prop :=
  (error_of d ≠ "" ↔ d.status = "failed") ∧ (result_of d ≠ "" ↔ d.status = "formatted")

/-- The successive states of one record under a list of api.py updates
(head is the state before any update). -/
def statesFrom (d : Document) : List Api.UpdateArgs → List Document
  | [] => [d]
  | u :: us => d :: statesFrom (Api.applyUpdate d u) us

/-- The states a job record passes through when the completion webhook
accepts it (draft to processing at progress 0) and one real pipeline run
with the given outcome then executes: the per-row effect of each
update_document_status call in program order. -/
def Api.run_states (d0 : Document) (job_id backend : String)
    (o : Api.RunOutcome) : List Document :=
  d0 :: statesFrom (Api.applyUpdate d0 Api.webhookProcessingUpd)
         (Api.process_document_task_updates job_id backend o)

/-- The update_document_status calls of the whole real flow for one job:
the webhook transition followed by a successful pipeline run. -/
def Api.full_flow_updates (job_id backend : String) (duration : ℚ) :
    List Api.UpdateArgs :=
  Api.webhookProcessingUpd
    :: Api.process_document_task_updates job_id backend (.success duration)

/-- The progress values reported during the real flow, in order. -/
def Api.progress_milestones (job_id backend : String) (duration : ℚ) : List Int :=
  (Api.full_flow_updates job_id backend duration).filterMap (fun u => u.progress)

/-- The update_document_status calls of the whole simulated flow for one
job: the webhook transition followed by a successful simulated run. -/
def Main.full_flow_updates : List Main.UpdateArgs :=
  Main.webhookProcessingUpd :: Main.simulate_processing_updates .success

/-- The progress values reported during the simulated flow, in order. -/
def Main.progress_milestones : List Int :=
  Main.full_flow_updates.filterMap (fun u => u.progress)

/-- The result handle of a run is never the empty string. -/
theorem result_filename_ne_empty (j : String) : Api.result_filename j ≠ "" := by
  intro h
  have hl : (Api.result_filename j).length = 0 := by rw [h]; rfl
  simp only [Api.result_filename, String.length_append] at hl
  have h1 : ("formatted/" : String).length = 10 := rfl
  have h2 : (".docx" : String).length = 5 := rfl
  omega

/-- The error classifier maps a non-empty exception message to a non-empty
user-facing message. -/
theorem classify_error_ne_empty (m : String) (h : m ≠ "") :
    Api.classify_error m ≠ "" := by
  unfold Api.classify_error
  split
  · decide
  · split
    · decide
    · exact h

/-! Claim theorems. -/

/-- The job record used for claim C1: a job already claimed by a pipeline
run (status processing) when a further completion call arrives. -/
def c1doc : Document :=
  Api.draftRecord "u1" "a.docx" "documents/u1/1_in.docx" "j1" "apa" "us" false none

/-- Claim C1 (code_bug evidence): the upload-completion webhook consults
only existence and ownership, never the current status, so a success=true
call for a job already in processing again returns success and spawns
another pipeline task, and two consecutive success=true calls spawn two
pipeline runs. -/
theorem c1_repeated_completion_starts_second_run :
    (Api.upload_complete_webhook [{ c1doc with status := "processing" }]
        "j1" "documents/u1/1_in.docx" "u1" true).pipeline_started = true
    ∧ (Api.upload_complete_webhook [{ c1doc with status := "processing" }]
        "j1" "documents/u1/1_in.docx" "u1" true).resp
        = .ok { success := true, message := "Processing started", job_id := "j1" }
    ∧ (Api.upload_complete_webhook [c1doc] "j1" "documents/u1/1_in.docx" "u1" true).db.map
        Document.status = ["processing"]
    ∧ (Api.upload_complete_webhook
         (Api.upload_complete_webhook [c1doc] "j1" "documents/u1/1_in.docx" "u1" true).db
         "j1" "documents/u1/1_in.docx" "u1" true).pipeline_started = true
    ∧ (Main.upload_complete_webhook [{ c1doc with status := "processing" }]
        "j1" "documents/u1/1_in.docx" "u1" true).pipeline_started = true :=
  ⟨rfl, rfl, rfl, rfl, rfl⟩

/-- The job record used for claim C2: a job whose pipeline run is active. -/
def c2doc : Document :=
  { Api.draftRecord "u1" "a.docx" "documents/u1/1_in.docx" "j2" "apa" "us" false none
      with status := "processing" }

/-- Claim C2 (code_bug evidence): delete_job never consults the status; for
a job in processing it removes the input object from blob storage, deletes
the row, and reports success instead of rejecting or deferring. -/
theorem c2_delete_while_processing_removes_storage :
    c2doc.status = "processing"
    ∧ (Api.delete_job [c2doc] ["documents/u1/1_in.docx"] "j2" "u1").resp
        = .ok { success := true, message := "Job deleted" }
    ∧ (Api.delete_job [c2doc] ["documents/u1/1_in.docx"] "j2" "u1").removed
        = ["documents/u1/1_in.docx"]
    ∧ (Api.delete_job [c2doc] ["documents/u1/1_in.docx"] "j2" "u1").storage = []
    ∧ (Api.delete_job [c2doc] ["documents/u1/1_in.docx"] "j2" "u1").db = [] :=
  ⟨rfl, rfl, rfl, rfl, rfl⟩

/-- The job record used for claim C3: a job owned by userA, accessed by
userB. -/
def c3doc : Document :=
  Api.draftRecord "userA" "a.docx" "documents/userA/1_in.docx" "j3" "apa" "us" false none

/-- Claim C3 (code_bug evidence): in api.py the ownership 404 raised inside
getStatus, download and delete is caught by the blanket except Exception of
the same handler and re-raised as a 500 Internal error (whose detail merely
quotes the original 404), both for a foreign job and for an absent one; the
main.py getStatus/download handlers do surface NotFound, and main.py
delete_job consults only the never-populated jobs_storage dictionary. -/
theorem c3_foreign_lookup_internal_error :
    Api.get_document_status [c3doc] "j3" "userB"
      = .error { status_code := 500, detail := "404: Job not found" }
    ∧ Api.download_document (fun _ => "bytes") [c3doc] "j3" "userB"
      = .error { status_code := 500, detail := "404: Job not found" }
    ∧ (Api.delete_job [c3doc] ["documents/userA/1_in.docx"] "j3" "userB").resp
      = .error { status_code := 500, detail := "404: Job not found" }
    ∧ Api.get_document_status [] "j3" "userA"
      = .error { status_code := 500, detail := "404: Job not found" }
    ∧ Main.get_document_status [c3doc] "j3" "userB"
      = .error { status_code := 404, detail := "Job not found" }
    ∧ Main.download_document [c3doc] "j3" "userB"
      = .error { status_code := 404, detail := "Job not found" }
    ∧ Main.delete_job [] "j3"
      = (.error { status_code := 404, detail := "Job not found" }, []) :=
  ⟨rfl, rfl, rfl, rfl, rfl, rfl, rfl⟩

/-- Claim C6 (confirmed): over the real flow, progress is reported in the
exact order 0 (webhook transition), 10 (after fetch), 30 (before the
transform), 90 (after the transform, before the result upload), and a
single final update that together sets status formatted, progress 100, the
result location, the elapsed duration and the backend; no earlier update
touches the result location or the duration. -/
theorem c6_real_run_progress_order (job_id backend : String) (duration : ℚ) :
    (Api.full_flow_updates job_id backend duration).map (fun u => (u.status, u.progress))
      = [("processing", some 0), ("processing", some 10), ("processing", some 30),
         ("processing", some 90), ("formatted", some 100)]
    ∧ (Api.full_flow_updates job_id backend duration).getLast?
      = some { status := "formatted", progress := some 100,
               processing_log := some { progress := some 100,
                                        processing_time := some duration,
                                        backend := some backend,
                                        message := some "Formatting successful" },
               result_url := some (Api.result_filename job_id),
               formatting_time := some duration }
    ∧ (Api.full_flow_updates job_id backend duration).dropLast.map
        (fun u => (u.result_url, u.formatting_time))
      = [(none, none), (none, none), (none, none), (none, none)] :=
  ⟨rfl, rfl, rfl⟩

/-- Claim C7 counterexample: the progress-milestone sequences of the real
and the simulated strategy differ (0,10,30,90,100 against 0,25,75,100), so
a status poll can observe values under one strategy that are impossible
under the other. -/
theorem c7_cex_milestones_differ :
    Api.progress_milestones "j7" "huggingface" 1 = [0, 10, 30, 90, 100]
    ∧ Main.progress_milestones = [0, 25, 75, 100]
    ∧ Api.progress_milestones "j7" "huggingface" 1 ≠ Main.progress_milestones :=
  ⟨rfl, rfl, by decide⟩

/-- Claim C7 (amended): both strategies drive the same status path
(processing, then formatted) and agree on the initial progress 0 and the
final progress 100, but their intermediate progress milestones differ. -/
theorem c7_amended_strategy_comparison (job_id backend : String) (duration : ℚ) :
    ((Api.full_flow_updates job_id backend duration).map (fun u => u.status)).dedup
      = ["processing", "formatted"]
    ∧ (Main.full_flow_updates.map (fun u => u.status)).dedup = ["processing", "formatted"]
    ∧ (Api.progress_milestones job_id backend duration).head? = some 0
    ∧ Main.progress_milestones.head? = some 0
    ∧ (Api.progress_milestones job_id backend duration).getLast? = some 100
    ∧ Main.progress_milestones.getLast? = some 100
    ∧ Api.progress_milestones job_id backend duration ≠ Main.progress_milestones := by
  refine ⟨rfl, rfl, rfl, rfl, rfl, rfl, ?_⟩
  have h1 : Api.progress_milestones job_id backend duration = [0, 10, 30, 90, 100] := rfl
  rw [h1]
  decide

/-- Claim C4 counterexample: a transform failure occurs after the progress-30
milestone, yet the single failed update carries progress 0, not the last
value 30: the code resets progress on failure instead of leaving it
unchanged. -/
theorem c4_cex_progress_zeroed :
    (Api.process_document_task_updates "j4" "huggingface"
        (.transformFail "JSON Parsing Error: unexpected token")).map
        (fun u => (u.status, u.progress))
      = [("processing", some 10), ("processing", some 30), ("failed", some 0)]
    ∧ (Api.failUpd "JSON Parsing Error: unexpected token").progress ≠ some 30 :=
  ⟨rfl, by decide⟩

/-- Claim C4 (amended): every exception at the fetch, transform or store
step results in exactly one update, the last of the run, setting status
failed with the classifier-normalized message — but with progress reset to 0
rather than left at its pre-failure value; a message matching the malformed
engine response pattern is normalized to the EngineMalformedResponse
message. -/
theorem c4_amended_failure_update (job_id backend m : String) :
    Api.process_document_task_updates job_id backend (.fetchFail m) = [Api.failUpd m]
    ∧ Api.process_document_task_updates job_id backend (.transformFail m)
        = [Api.upd10, Api.upd30 backend, Api.failUpd m]
    ∧ Api.process_document_task_updates job_id backend (.storeFail m)
        = [Api.upd10, Api.upd30 backend, Api.upd90, Api.failUpd m]
    ∧ (Api.process_document_task_updates job_id backend (.storeFail m)).countP
        (fun u => u.status == "failed") = 1
    ∧ (Api.failUpd m).status = "failed"
    ∧ (Api.failUpd m).progress = some 0
    ∧ (Api.failUpd m).processing_log = some { error := some (Api.classify_error m) }
    ∧ (strContains m "JSON Parsing Error" = true →
        Api.classify_error m
          = "Formatting failed: AI response was malformed. Please try again.") := by
  refine ⟨rfl, rfl, rfl, rfl, rfl, rfl, rfl, ?_⟩
  intro h
  simp [Api.classify_error, h]

/-- Claim C4 witness: the conclusion of the amended theorem at a concrete
malformed-response message, its inner hypothesis discharged there. -/
theorem c4_witness :
    strContains "JSON Parsing Error: column 7" "JSON Parsing Error" = true
    ∧ Api.classify_error "JSON Parsing Error: column 7"
        = "Formatting failed: AI response was malformed. Please try again." :=
  ⟨rfl, (c4_amended_failure_update "j4" "huggingface"
      "JSON Parsing Error: column 7").2.2.2.2.2.2.2 rfl⟩

/-- Claim C8 counterexample: the api.py create-upload endpoint performs no
size validation at all: a declared size of 200 MiB (over the 100 MB
ceiling) is accepted and the draft job record is created, storing that
size. -/
theorem c8_cex_api_accepts_oversize :
    (Api.create_upload_url [] "thesis.docx" "apa" "us" false (some 209715200)
        "u1" "j8" "documents/u1/1_t.docx" "url" "tok").resp
      = .ok { success := true, job_id := "j8", upload_url := "url",
              upload_token := "tok", file_path := "documents/u1/1_t.docx",
              message := "Upload URL created." }
    ∧ (Api.create_upload_url [] "thesis.docx" "apa" "us" false (some 209715200)
        "u1" "j8" "documents/u1/1_t.docx" "url" "tok").db.map
        (fun d => (d.status, d.file_size))
      = [("draft", some 209715200)]
    ∧ 100 * 1024 * 1024 < (209715200 : Int) :=
  ⟨rfl, rfl, by norm_num⟩

/-- The rejection message the main.py size validation produces: the
InvalidArgument message for a negative size, the PayloadTooLarge message
otherwise. -/
def size_reject_detail (n : Int) : String :=
  if n < 0 then "File size must be non-negative"
  else "File size exceeds maximum limit of 100MB"

/-- Claim C8 (amended): the main.py create-upload endpoint rejects a
declared size above the 100 MB ceiling with a 400 whose message names the
size limit (PayloadTooLarge) and a negative declared size with a 400 whose
message names the invalid size (InvalidArgument), in both cases leaving the
table unchanged, i.e. creating no job record. -/
theorem c8_amended_size_validation (db : DB) (filename style variant : String)
    (tracked : Bool) (user job path url tok : String) (n : Int)
    (h : n < 0 ∨ 100 * 1024 * 1024 < n) :
    Main.create_upload_url db filename style variant tracked (some n)
        user job path url tok
      = { resp := .error { status_code := 400, detail := size_reject_detail n },
          db := db } := by
  rcases h with h | h
  · simp [Main.create_upload_url, size_reject_detail, h]
  · have h0 : ¬ n < 0 := by omega
    have h1 : (104857600 : Int) < n := by omega
    simp [Main.create_upload_url, size_reject_detail, h0, h1]

/-- Claim C8 witness: the hypothesis and conclusion of the amended theorem
at the concrete declared size 200 MiB. -/
theorem c8_witness :
    ((209715200 : Int) < 0 ∨ 100 * 1024 * 1024 < (209715200 : Int))
    ∧ Main.create_upload_url [] "thesis.docx" "apa" "us" false (some 209715200)
        "u1" "j8" "documents/u1/1_t.docx" "url" "tok"
      = { resp := .error { status_code := 400, detail := size_reject_detail 209715200 },
          db := [] } :=
  ⟨Or.inr (by norm_num),
   c8_amended_size_validation [] "thesis.docx" "apa" "us" false
     "u1" "j8" "documents/u1/1_t.docx" "url" "tok" 209715200 (Or.inr (by norm_num))⟩

/-- The job record used for the claim C9 counterexample: formatted, with the
tracked-changes option on and a result object present, read through the
api.py download endpoint. -/
def c9apidoc : Document :=
  { Api.draftRecord "u1" "a.docx" "documents/u1/1_in.docx" "j9a" "apa" "us" true none
      with status := "formatted", result_url := some "formatted/j9a.docx" }

/-- Claim C9 counterexample: the api.py download endpoint never attaches a
tracked-changes payload (the response field keeps its None default) even for
a formatted job whose options request it, and its not-ready rejection is
swallowed by the blanket except and surfaces as a 500, not NotReady. -/
theorem c9_cex_api_no_tracked_payload :
    c9apidoc.formatting_options.trackedChanges = true
    ∧ (Api.download_document (fun _ => "DOCX") [c9apidoc] "j9a" "u1").map
        (fun r => r.tracked_changes_content) = .ok none
    ∧ Api.download_document (fun _ => "DOCX")
        [{ c9apidoc with status := "processing", result_url := none }] "j9a" "u1"
      = .error { status_code := 500, detail := "400: Document not ready" } :=
  ⟨rfl, rfl, rfl⟩

/-- Claim C9 (amended): in the main.py download endpoint, a formatted job
with the tracked-changes variant requested receives a secondary
tracked-changes payload alongside the primary content, and any
non-formatted job fails with the not-ready 400; the api.py endpoint (see
the counterexample) returns no secondary payload and masks NotReady as a
500. -/
theorem c9_amended_download_variants (doc : Document) :
    (doc.status = "formatted" → Main.tracked_enabled doc = true →
      Main.download_document [doc] doc.id doc.user_id
        = .ok { success := true, filename := "formatted_" ++ doc.filename,
                content := b64encode (Main.mock_text doc),
                tracked_changes_content := some (b64encode (Main.tracked_text doc)),
                metadata := { word_count := (doc.processing_log.getD {}).word_count.getD 1250,
                              style_applied := doc.style_applied,
                              processing_time := (doc.processing_log.getD {}).processing_time.getD (3.5 : ℚ),
                              tracked_changes_enabled := true } })
    ∧ (doc.status ≠ "formatted" →
        Main.download_document [doc] doc.id doc.user_id
          = .error { status_code := 400, detail := "Document not ready for download" }) := by
  constructor
  · intro h1 h2
    simp [Main.download_document, selectByIdUser, h1, h2]
  · intro h1
    simp [Main.download_document, selectByIdUser, h1]

/-- The job record used for the claim C9 witness. -/
def c9doc : Document :=
  { Main.draftRecord "u1" "a.docx" "documents/u1/1_in.docx" "j9" "apa" "us" true none
      with status := "formatted" }

/-- Claim C9 witness: the hypotheses and conclusion of the amended theorem
at a concrete formatted tracked-changes job. -/
theorem c9_witness :
    c9doc.status = "formatted"
    ∧ Main.tracked_enabled c9doc = true
    ∧ Main.download_document [c9doc] c9doc.id c9doc.user_id
        = .ok { success := true, filename := "formatted_" ++ c9doc.filename,
                content := b64encode (Main.mock_text c9doc),
                tracked_changes_content := some (b64encode (Main.tracked_text c9doc)),
                metadata := { word_count := (c9doc.processing_log.getD {}).word_count.getD 1250,
                              style_applied := c9doc.style_applied,
                              processing_time := (c9doc.processing_log.getD {}).processing_time.getD (3.5 : ℚ),
                              tracked_changes_enabled := true } } :=
  ⟨rfl, rfl, (c9_amended_download_variants c9doc).1 rfl rfl⟩

/-- The job record used for the claim C5 counterexample. -/
def c5doc : Document :=
  Main.draftRecord "u1" "a.docx" "documents/u1/1_in.docx" "j5" "apa" "us" false none

/-- Claim C5 counterexample, refuting the invariant in both services on
reachable states: in main.py the upload-failure path marks the record failed
without recording any error (the log is dropped because
update_document_status is called without a progress), a completed simulated
run leaves a formatted record whose result location was never set, and a
failing simulated run likewise drops its error log; in api.py a replayed
success webhook on a formatted record (replay is possible, see claim C1)
leaves the result location set while status is processing, and a pipeline
exception whose message stringifies to the empty string leaves a failed
record whose error is the empty string. -/
theorem c5_cex_failed_without_error :
    ((Main.upload_complete_webhook [c5doc] "j5" "documents/u1/1_in.docx" "u1" false).db.map
        (fun d => (d.status, d.processing_log))) = [("failed", none)]
    ∧ ((Main.simulate_processing
          (Main.upload_complete_webhook [c5doc] "j5" "documents/u1/1_in.docx" "u1" true).db
          "j5" .success).map (fun d => (d.status, d.result_url)))
      = [("formatted", none)]
    ∧ ((Main.simulate_processing
          (Main.upload_complete_webhook [c5doc] "j5" "documents/u1/1_in.docx" "u1" true).db
          "j5" (.fail 1 "oops")).map
        (fun d => (d.status, (d.processing_log.getD {}).error)))
      = [("failed", none)]
    ∧ ((Api.upload_complete_webhook
          (Api.process_document_task
            (Api.upload_complete_webhook
              [Api.draftRecord "u1" "a.docx" "documents/u1/1_in.docx" "j5" "apa" "us" false none]
              "j5" "documents/u1/1_in.docx" "u1" true).db
            "j5" "huggingface" (.success 1))
          "j5" "documents/u1/1_in.docx" "u1" true).db.map
        (fun d => (d.status, d.result_url)))
      = [("processing", some "formatted/j5.docx")]
    ∧ ((Api.process_document_task
          (Api.upload_complete_webhook
            [Api.draftRecord "u1" "a.docx" "documents/u1/1_in.docx" "j5" "apa" "us" false none]
            "j5" "documents/u1/1_in.docx" "u1" true).db
          "j5" "huggingface" (.transformFail "")).map
        (fun d => (d.status, (d.processing_log.getD {}).error)))
      = [("failed", some "")] :=
  ⟨rfl, rfl, rfl, rfl, rfl⟩

/-- Claim C5 (amended): along a single run of one job in the real service
(draft, one webhook acceptance, then one pipeline run of any outcome, no
replayed webhook), every intermediate and final record state satisfies the
invariant — error non-empty iff failed and result location non-empty iff
formatted — provided the exception message of a failing run is non-empty
(each proviso is forced: the counterexample exhibits a replayed webhook and
an empty message violating the invariant on reachable real-service states).
In the simulated service the invariant fails on both sides: no main.py
update ever writes the result location, and both failure paths drop their
error log — the webhook upload-failure update and the simulate_processing
exception-handler update (the last update of every failing simulated run)
each pass the log without a progress, so applyUpdate discards it. -/
theorem c5_amended_invariant
    (user_id filename file_path job_id style variant backend : String)
    (tracked : Bool) (size : Option Int) (o : Api.RunOutcome)
    (hmsg : ∀ m, Api.RunOutcome.failureMsg o = some m → m ≠ "") :
    (∀ d ∈ Api.run_states
        (Api.draftRecord user_id filename file_path job_id style variant tracked size)
        job_id backend o, record_consistent d)
    ∧ (∀ (d : Document) (u : Main.UpdateArgs),
        (Main.applyUpdate d u).result_url = d.result_url)
    ∧ (∀ d : Document,
        (Main.applyUpdate d Main.webhookFailedUpd).processing_log = d.processing_log)
    ∧ (∀ (k : Nat) (m : String),
        (Main.simulate_processing_updates (.fail k m)).getLast?
          = some (Main.sim_fail_upd m))
    ∧ (∀ (d : Document) (m : String),
        (Main.applyUpdate d (Main.sim_fail_upd m)).processing_log = d.processing_log) := by
  refine ⟨?_, ?_, ?_, ?_, ?_⟩
  · cases o with
    | success duration =>
        intro d hd
        simp [Api.run_states, statesFrom, Api.process_document_task_updates] at hd
        rcases hd with rfl | rfl | rfl | rfl | rfl | rfl
        · exact ⟨of_decide_eq_true rfl, of_decide_eq_true rfl⟩
        · exact ⟨of_decide_eq_true rfl, of_decide_eq_true rfl⟩
        · exact ⟨of_decide_eq_true rfl, of_decide_eq_true rfl⟩
        · exact ⟨of_decide_eq_true rfl, of_decide_eq_true rfl⟩
        · exact ⟨of_decide_eq_true rfl, of_decide_eq_true rfl⟩
        · exact ⟨of_decide_eq_true rfl, iff_of_true (result_filename_ne_empty job_id) rfl⟩
    | fetchFail m =>
        intro d hd
        simp [Api.run_states, statesFrom, Api.process_document_task_updates] at hd
        rcases hd with rfl | rfl | rfl
        · exact ⟨of_decide_eq_true rfl, of_decide_eq_true rfl⟩
        · exact ⟨of_decide_eq_true rfl, of_decide_eq_true rfl⟩
        · exact ⟨iff_of_true (classify_error_ne_empty m (hmsg m rfl)) rfl, of_decide_eq_true rfl⟩
    | transformFail m =>
        intro d hd
        simp [Api.run_states, statesFrom, Api.process_document_task_updates] at hd
        rcases hd with rfl | rfl | rfl | rfl | rfl
        · exact ⟨of_decide_eq_true rfl, of_decide_eq_true rfl⟩
        · exact ⟨of_decide_eq_true rfl, of_decide_eq_true rfl⟩
        · exact ⟨of_decide_eq_true rfl, of_decide_eq_true rfl⟩
        · exact ⟨of_decide_eq_true rfl, of_decide_eq_true rfl⟩
        · exact ⟨iff_of_true (classify_error_ne_empty m (hmsg m rfl)) rfl, of_decide_eq_true rfl⟩
    | storeFail m =>
        intro d hd
        simp [Api.run_states, statesFrom, Api.process_document_task_updates] at hd
        rcases hd with rfl | rfl | rfl | rfl | rfl | rfl
        · exact ⟨of_decide_eq_true rfl, of_decide_eq_true rfl⟩
        · exact ⟨of_decide_eq_true rfl, of_decide_eq_true rfl⟩
        · exact ⟨of_decide_eq_true rfl, of_decide_eq_true rfl⟩
        · exact ⟨of_decide_eq_true rfl, of_decide_eq_true rfl⟩
        · exact ⟨of_decide_eq_true rfl, of_decide_eq_true rfl⟩
        · exact ⟨iff_of_true (classify_error_ne_empty m (hmsg m rfl)) rfl, of_decide_eq_true rfl⟩
  · intro d u
    rcases u with ⟨s, p, l⟩
    cases p <;> rfl
  · intro d
    rfl
  · intro k m
    simp [Main.simulate_processing_updates, List.getLast?_concat]
  · intro d m
    rfl

/-- Claim C5 witness: the amended invariant instantiated to a concrete job
whose run fails at the transform step with the non-empty message, checked at
the final failed state. -/
theorem c5_witness :
    ("boom" : String) ≠ ""
    ∧ record_consistent
        { id := "j5w", user_id := "u1", filename := "a.docx", status := "failed",
          style_applied := "apa", language_variant := "us",
          storage_location := "documents/u1/1_in.docx",
          formatting_options := {}, tracked_changes := some false,
          processing_log := some { progress := some 0, error := some "boom" } } := by
  have h : ∀ m, Api.RunOutcome.failureMsg (Api.RunOutcome.transformFail "boom") = some m → m ≠ "" := by
    intro m hm
    simp [Api.RunOutcome.failureMsg] at hm
    subst hm
    decide
  refine ⟨by decide, ?_⟩
  have hinv := (c5_amended_invariant "u1" "a.docx" "documents/u1/1_in.docx" "j5w"
      "apa" "us" "huggingface" false none (.transformFail "boom") h).1
  exact hinv _ (by decide)

/-- Claim C10 (confirmed): both status-update helpers wrap the store write
in a bare try/except that only logs, so they return normally for every
input; when the store write raises, the helper returns the unchanged table
state, i.e. the update is silently dropped. -/
theorem c10_update_status_swallows_store_errors (store_fail : Bool) (db : DB)
    (job_id : String) (u : Api.UpdateArgs) (v : Main.UpdateArgs) :
    Api.update_document_status store_fail db job_id u
      = .ok (if store_fail then db else Api.updateWhere db job_id u)
    ∧ Main.update_document_status store_fail db job_id v
      = .ok (if store_fail then db else Main.updateWhere db job_id v) := by
  cases store_fail <;> exact ⟨rfl, rfl⟩

end Formatly
